import Mathlib

/-!
A shallow embedding of the rushdb-python HTTP client, covering the parts of
the library with real client-side semantics: target-id extraction and request
shaping for attach/detach (`api/records.py`), the transaction lifecycle state
machine (`models/transaction.py`), search-result pagination metadata
(`models/result.py`), record timestamp derivation (`models/record.py`), and
delete-by-id request shaping.  Pure functions of the source become Lean
functions; the HTTP transport is modelled as an explicit outcome parameter
(success or raised exception); Python exceptions become `Except` results.
-/

namespace RushDB

/-- A model of the Python values flowing through the client: strings,
integers, booleans, `None`, lists, plain dicts (association lists in
insertion order), and `Record` wrapper objects carrying their data dict. -/
inductive PyVal where
  | str (s : String)
  | int (n : Int)
  | bool (b : Bool)
  | null
  | list (xs : List PyVal)
  | dict (kvs : List (String × PyVal))
  | record (data : List (String × PyVal))

/-- `d.get(k)` on a Python dict modelled as an association list: the value at
key `k`, or `Option.none` when the key is absent. -/
def dict_get (kvs : List (String × PyVal)) (k : String) : Option PyVal :=
  (kvs.find? fun p => p.1 == k).map fun p => p.2

/-- `k in d` on a Python dict. -/
def dict_has (kvs : List (String × PyVal)) (k : String) : Bool :=
  kvs.any fun p => p.1 == k

/-- One HTTP request as composed by the client before it reaches the
transport: method, path and optional JSON body. -/
structure Request where
  method : String
  path : String
  body : Option PyVal

/-- The local transaction handle of `models/transaction.py`: the two mutable
state flags `_committed` and `_rolled_back` (the id and client pointer play no
role in the lifecycle logic). -/
structure Transaction where
  committed : Bool
  rolled_back : Bool
  deriving DecidableEq, Repr

/-- Result of running one lifecycle method on a transaction handle.  `ok`
carries the updated handle; `clientError` is an exception raised locally
before any request reaches the transport (`RushDBError`); `transportError`
is an exception propagating out of the HTTP call.  Each constructor records
the handle state after the call and how many HTTP requests were issued. -/
inductive TxOutcome where
  | ok (t : Transaction) (requests : Nat)
  | clientError (msg : String) (t : Transaction) (requests : Nat)
  | transportError (t : Transaction) (requests : Nat)
  deriving DecidableEq, Repr

/-- `Transaction.commit`: raise `RushDBError("Transaction already completed")`
if either flag is set, otherwise issue the commit request and only then set
`_committed`.  `transportOk` says whether the HTTP call returns normally. -/
def Transaction.commit (t : Transaction) (transportOk : Bool) : TxOutcome :=
  if t.committed || t.rolled_back then
    .clientError "Transaction already completed" t 0
  else if transportOk then
    .ok { t with committed := true } 1
  else
    .transportError t 1

/-- `Transaction.rollback`: the mirror image of `Transaction.commit`, setting
`_rolled_back` after a successful rollback request. -/
def Transaction.rollback (t : Transaction) (transportOk : Bool) : TxOutcome :=
  if t.committed || t.rolled_back then
    .clientError "Transaction already completed" t 0
  else if transportOk then
    .ok { t with rolled_back := true } 1
  else
    .transportError t 1

/-- `Transaction.__exit__`: with an exception pending, roll back unless
`_rolled_back` is already set; on normal exit, commit when both flags are
clear.  `.ok t 0` models falling through with no action and no request. -/
def Transaction.exitScope (t : Transaction) (excPending : Bool)
    (transportOk : Bool) : TxOutcome :=
  if excPending then
    if !t.rolled_back then t.rollback transportOk
    else .ok t 0
  else if !t.committed && !t.rolled_back then t.commit transportOk
  else .ok t 0

/-- `RecordsAPI._extract_target_ids`, branch for branch.  A plain string is
wrapped in a singleton; a list maps each element to `t.get("__id", "")` when
it is a dict and to `""` otherwise; a `Record` whose data contains `"__id"`
and a dict containing `"__id"` yield that value; everything else raises
`ValueError("Invalid target format")`.  The Python return annotation is
`List[str]`, but the extracted values are returned unchecked, so the model
returns `List PyVal`. -/
def RecordsAPI.extract_target_ids : PyVal → Except String (List PyVal)
  | .str s => .ok [.str s]
  | .list ts =>
    .ok (ts.map fun t =>
      match t with
      | .dict kvs => (dict_get kvs "__id").getD (.str "")
      | _ => .str "")
  | .record data =>
    if h : (dict_get data "__id").isSome then .ok [(dict_get data "__id").get h]
    else .error "Invalid target format"
  | .dict kvs =>
    if h : (dict_get kvs "__id").isSome then .ok [(dict_get kvs "__id").get h]
    else .error "Invalid target format"
  | _ => .error "Invalid target format"

/-- Python `dict.update`: existing keys are overwritten in place, new keys are
appended in order. -/
def dict_set (kvs : List (String × PyVal)) (k : String) (v : PyVal) :
    List (String × PyVal) :=
  if dict_has kvs k then kvs.map fun p => if p.1 == k then (k, v) else p
  else kvs ++ [(k, v)]

/-- `base.update(upd)` over association-list dicts. -/
def dict_update (base upd : List (String × PyVal)) : List (String × PyVal) :=
  upd.foldl (fun acc kv => dict_set acc kv.1 kv.2) base

/-- Rendering of a `PyVal` into an f-string path segment (only ever reached
with string ids in the claims below). -/
def PyVal.fstr : PyVal → String
  | .str s => s
  | .int n => toString n
  | .bool b => if b then "True" else "False"
  | .null => "None"
  | _ => "object"

/-- `RecordsAPI.attach`: extract the source id (first element of the
extraction of `source`), extract the target ids, build the payload
`{"targetIds": ...}` updated with the options dict, and issue exactly one
POST to `/relationships/{source_id}`.  An extraction error propagates before
any request is composed. -/
def RecordsAPI.attach (source target : PyVal)
    (options : Option (List (String × PyVal))) :
    Except String (List Request) := do
  let source_ids ← RecordsAPI.extract_target_ids source
  match source_ids with
  | [] => .error "list index out of range"
  | source_id :: _ =>
    let target_ids ← RecordsAPI.extract_target_ids target
    let payload := [("targetIds", PyVal.list target_ids)]
    let payload := match options with
      | some opts => dict_update payload opts
      | Option.none => payload
    .ok [⟨"POST", "/relationships/" ++ source_id.fstr, some (.dict payload)⟩]

/-- `RecordsAPI.detach` differs from attach only in the HTTP verb. -/
def RecordsAPI.detach (source target : PyVal)
    (options : Option (List (String × PyVal))) :
    Except String (List Request) := do
  let source_ids ← RecordsAPI.extract_target_ids source
  match source_ids with
  | [] => .error "list index out of range"
  | source_id :: _ =>
    let target_ids ← RecordsAPI.extract_target_ids target
    let payload := [("targetIds", PyVal.list target_ids)]
    let payload := match options with
      | some opts => dict_update payload opts
      | Option.none => payload
    .ok [⟨"PUT", "/relationships/" ++ source_id.fstr, some (.dict payload)⟩]

/-- `RecordsAPI.delete_by_id`: a list of ids becomes a single
`POST /records/delete` whose body is `{"limit": 1000, "where": {"$id":
{"$in": ids}}}`; a single id becomes a single `DELETE /records/{id}` with no
body.  The returned list holds every request the call issues. -/
def RecordsAPI.delete_by_id : String ⊕ List String → List Request
  | .inr ids =>
    [⟨"POST", "/records/delete",
      some (.dict [("limit", .int 1000),
        ("where", .dict [("$id", .dict [("$in", .list (ids.map PyVal.str))])])])⟩]
  | .inl i => [⟨"DELETE", "/records/" ++ i, Option.none⟩]

/-- The `SearchQuery` TypedDict (all keys optional): only `skip` and `limit`
carry arithmetic meaning client-side; the other members are forwarded
verbatim. -/
structure SearchQueryM where
  whereClause : Option PyVal := Option.none
  labels : Option (List String) := Option.none
  skip : Option Int := Option.none
  limit : Option Int := Option.none
  orderBy : Option PyVal := Option.none
  aggregate : Option PyVal := Option.none

/-- Python `x or d` on an optional integer: `d` when the value is absent or
equals `0` (falsy), the value itself otherwise. -/
def pyOrInt : Option Int → Int → Int
  | some x, d => if x = 0 then d else x
  | Option.none, d => d

/-- The state stored by `SearchResult.__init__`: the data list, the resolved
`_total` and the resolved `_search_query`. -/
structure SearchResult (α : Type) where
  data : List α
  total : Int
  search_query : SearchQueryM

/-- `SearchResult.__init__`: `_total = total or len(data)` (so `None` and `0`
both fall back to the data length) and `_search_query = search_query or {}`. -/
def SearchResult.init (data : List α) (total : Option Int)
    (search_query : Option SearchQueryM) : SearchResult α :=
  { data := data
    total := pyOrInt total data.length
    search_query := search_query.getD {} }

/-- The `skip` property: `self._search_query.get("skip") or 0`. -/
def SearchResult.skip (r : SearchResult α) : Int :=
  pyOrInt r.search_query.skip 0

/-- The `limit` property: `self._search_query.get("limit")`. -/
def SearchResult.limit (r : SearchResult α) : Option Int :=
  r.search_query.limit

/-- The `has_more` property: `self._total > (self.skip + len(self._data))`. -/
def SearchResult.has_more (r : SearchResult α) : Bool :=
  decide (r.skip + (r.data.length : Int) < r.total)

/-- A parsed JSON search response: `response.get("data", [])` and
`response.get("total", 0)` are modelled by the two optional fields. -/
structure FindResponse where
  data : Option (List PyVal)
  total : Option Int

/-- `Record.__init__` applied to one payload: a dict is accepted as the
record's data, anything else raises `ValueError`. -/
def Record.ofPayload : PyVal → Except String (List (String × PyVal))
  | .dict kvs => .ok kvs
  | _ => .error "Invalid data format for Record"

/-- `RecordsAPI.find`: inside `try`, wrap every response payload in a
`Record` and build a `SearchResult` from the wrapped records and
`response.get("total", 0)`; any exception from the transport or from the
wrapping is swallowed and an empty result with `total=0` (and no query) is
returned instead. -/
def RecordsAPI.find (resp : Except String FindResponse)
    (search_query : Option SearchQueryM) :
    SearchResult (List (String × PyVal)) :=
  match resp with
  | .error _ => SearchResult.init [] (some 0) Option.none
  | .ok r =>
    match (r.data.getD []).mapM Record.ofPayload with
    | .error _ => SearchResult.init [] (some 0) Option.none
    | .ok records =>
      SearchResult.init records (some (r.total.getD 0)) search_query

/-- Python `s.split(sep)` for a one-character separator, on the character
list of the string: empty segments are kept, and the result is never the
empty list. -/
def pySplitChar (sep : Char) : List Char → List (List Char)
  | [] => [[]]
  | c :: cs =>
    if c = sep then [] :: pySplitChar sep cs
    else
      match pySplitChar sep cs with
      | s :: ss => (c :: s) :: ss
      | [] => [[c]]

/-- Value of one hexadecimal digit, `Option.none` for any other character. -/
def hexDigitVal (c : Char) : Option Nat :=
  if '0' ≤ c ∧ c ≤ '9' then some (c.toNat - '0'.toNat)
  else if 'a' ≤ c ∧ c ≤ 'f' then some (c.toNat - 'a'.toNat + 10)
  else if 'A' ≤ c ∧ c ≤ 'F' then some (c.toNat - 'A'.toNat + 10)
  else none

/-- `int(s, 16)` on a plain digit string: `Option.none` models the
`ValueError` raised on an empty string or a non-hex character. -/
def pyIntHex (cs : List Char) : Option Nat :=
  if cs.isEmpty then Option.none
  else
    cs.foldl
      (fun acc c =>
        match acc, hexDigitVal c with
        | some a, some d => some (16 * a + d)
        | _, _ => Option.none)
      (some 0)

/-- The base-16 value of a list of hex digits (total version used to state
what `pyIntHex` returns on well-formed input). -/
def hexValue (cs : List Char) : Nat :=
  cs.foldl (fun a c => 16 * a + (hexDigitVal c).getD 0) 0

/-- `sep.join(segments)` as a character list. -/
def intercalateSep (sep : Char) : List (List Char) → List Char
  | [] => []
  | [s] => s
  | s :: ss => s ++ sep :: intercalateSep sep ss

/-- The arithmetic core of the `Record.timestamp` property, applied to the
segments produced by `split("-")`: concatenate segment 0 with the first four
characters of segment 1 and parse the result in base 16.  A missing second
segment is Python's `IndexError`. -/
def timestamp_parts : List (List Char) → Except String Nat
  | p0 :: p1 :: _ =>
    match pyIntHex (p0 ++ p1.take 4) with
    | some n => .ok n
    | Option.none => .error "invalid literal for int with base 16"
  | _ => .error "list index out of range"

/-- The `Record.timestamp` derivation on the id string:
`parts = record_id.split("-")`, then `int(parts[0] + parts[1][:4], 16)`. -/
def timestamp_of_id (s : String) : Except String Nat :=
  timestamp_parts (pySplitChar '-' s.data)

/-- The `Record.timestamp` property: read `self.data.get("__id")`, raise if
it is missing or `None`, then derive the timestamp from the id string.  A
non-string id would fail attribute lookup. -/
def Record.timestamp (data : List (String × PyVal)) : Except String Nat :=
  match dict_get data "__id" with
  | Option.none => .error "Record ID is missing or None"
  | some PyVal.null => .error "Record ID is missing or None"
  | some (.str s) => timestamp_of_id s
  | some _ => .error "str attribute lookup failed on non-string id"

/-- C1: the id-extraction function used by attach/detach is claimed to
return the same ordered list of identifier strings for every valid target
shape.  Evaluating `_extract_target_ids` shows the single-string, single
record-shaped dict, single `Record` and list-of-dicts shapes all yield
`["record_123"]`, but a list of id strings and a list of `Record` objects
each yield `[""]` instead: every non-dict list element is coerced to the
empty string, contradicting the claim and the method's own docstring. -/
theorem extract_target_ids_shapes_eval :
    RecordsAPI.extract_target_ids (.str "record_123") = .ok [.str "record_123"] ∧
    RecordsAPI.extract_target_ids (.dict [("__id", .str "record_123")]) =
      .ok [.str "record_123"] ∧
    RecordsAPI.extract_target_ids (.record [("__id", .str "record_123")]) =
      .ok [.str "record_123"] ∧
    RecordsAPI.extract_target_ids (.list [.dict [("__id", .str "record_123")]]) =
      .ok [.str "record_123"] ∧
    RecordsAPI.extract_target_ids (.list [.str "record_123"]) = .ok [.str ""] ∧
    RecordsAPI.extract_target_ids (.list [.record [("__id", .str "record_123")]]) =
      .ok [.str ""] :=
  ⟨rfl, rfl, rfl, rfl, rfl, rfl⟩

/-- C4: a malformed target is claimed to make attach/detach fail client-side
before any request.  A bare integer does raise `ValueError("Invalid target
format")` with no request composed, but a list containing a non-dict,
non-record entry does not fail: the entry is coerced to the empty string and
one POST (resp. PUT) request is issued with `targetIds = [""]`,
contradicting the claim and the documented `Raises: ValueError`. -/
theorem attach_malformed_target_eval :
    RecordsAPI.extract_target_ids (.int 42) = .error "Invalid target format" ∧
    RecordsAPI.attach (.str "src") (.int 42) Option.none =
      .error "Invalid target format" ∧
    RecordsAPI.detach (.str "src") (.int 42) Option.none =
      .error "Invalid target format" ∧
    RecordsAPI.attach (.str "src") (.list [.int 42]) Option.none =
      .ok [⟨"POST", "/relationships/src",
        some (.dict [("targetIds", .list [.str ""])])⟩] ∧
    RecordsAPI.detach (.str "src") (.list [.int 42]) Option.none =
      .ok [⟨"PUT", "/relationships/src",
        some (.dict [("targetIds", .list [.str ""])])⟩] :=
  ⟨rfl, rfl, rfl, rfl, rfl⟩

/-- C7: `delete_by_id` issues exactly one request in either mode: for a list
of ids (of any length) a single `POST /records/delete` whose body is
`{"limit": 1000, "where": {"$id": {"$in": ids}}}`, and for a single id a
single `DELETE /records/{id}` with no body. -/
theorem delete_by_id_single_request (ids : List String) (i : String) :
    RecordsAPI.delete_by_id (.inr ids) =
      [⟨"POST", "/records/delete",
        some (.dict [("limit", .int 1000),
          ("where", .dict [("$id",
            .dict [("$in", .list (ids.map PyVal.str))])])])⟩] ∧
    (RecordsAPI.delete_by_id (.inr ids)).length = 1 ∧
    RecordsAPI.delete_by_id (.inl i) =
      [⟨"DELETE", "/records/" ++ i, Option.none⟩] ∧
    (RecordsAPI.delete_by_id (.inl i)).length = 1 :=
  ⟨rfl, rfl, rfl, rfl⟩

/-- C2: after a successful `commit()` or `rollback()` (one transport call
from the `OPEN` state), any later `commit()` or `rollback()` on the
resulting handle raises `RushDBError("Transaction already completed")`
client-side, with zero requests issued, whatever the transport would do. -/
theorem transaction_commit_rollback_at_most_once
    (t t' : Transaction) (n : Nat) (b : Bool)
    (h : t.commit true = .ok t' n ∨ t.rollback true = .ok t' n) :
    t'.commit b = .clientError "Transaction already completed" t' 0 ∧
    t'.rollback b = .clientError "Transaction already completed" t' 0 := by
  have ht' : t'.committed = true ∨ t'.rolled_back = true := by
    rcases t with ⟨c, r⟩
    cases c <;> cases r <;> rcases h with h | h <;>
      simp [Transaction.commit, Transaction.rollback] at h <;>
      obtain ⟨h1, h2⟩ := h <;> subst h1 <;> simp
  rcases t' with ⟨c', r'⟩
  rcases ht' with h1 | h1 <;>
    simp_all [Transaction.commit, Transaction.rollback]

/-- Witness for C2 at the concrete open transaction. -/
theorem transaction_at_most_once_witness :
    (Transaction.mk true false).commit true =
      .clientError "Transaction already completed" (Transaction.mk true false) 0 ∧
    (Transaction.mk true false).rollback true =
      .clientError "Transaction already completed" (Transaction.mk true false) 0 :=
  transaction_commit_rollback_at_most_once ⟨false, false⟩ ⟨true, false⟩ 1 true
    (Or.inl rfl)

/-- C9: when the HTTP call raised, neither flag was set yet (flags are set
only after the request returns), so the handle is returned unchanged and a
subsequent `commit()` or `rollback()` from that same handle still succeeds. -/
theorem transport_failure_leaves_flags (t : Transaction)
    (h : t.committed = false ∧ t.rolled_back = false) :
    t.commit false = .transportError t 1 ∧
    t.rollback false = .transportError t 1 ∧
    t.commit true = .ok { t with committed := true } 1 ∧
    t.rollback true = .ok { t with rolled_back := true } 1 := by
  rcases t with ⟨c, r⟩
  rcases h with ⟨hc, hr⟩
  subst hc hr
  decide

/-- Witness for C9 at the concrete open transaction. -/
theorem transport_failure_witness :
    (Transaction.mk false false).commit false =
      .transportError (Transaction.mk false false) 1 ∧
    (Transaction.mk false false).rollback false =
      .transportError (Transaction.mk false false) 1 ∧
    (Transaction.mk false false).commit true =
      .ok (Transaction.mk true false) 1 ∧
    (Transaction.mk false false).rollback true =
      .ok (Transaction.mk false true) 1 :=
  transport_failure_leaves_flags ⟨false, false⟩ ⟨rfl, rfl⟩

/-- C3 counterexample: a transaction already committed (a terminal state)
hits scope exit with an error propagating; the claim says no further
transition and no double-transition error, but `__exit__` only checks
`_rolled_back` on the error path, calls `rollback()`, and that raises
`RushDBError("Transaction already completed")`. -/
theorem exit_committed_exception_raises :
    (Transaction.mk true false).exitScope true true =
      .clientError "Transaction already completed" (Transaction.mk true false) 0 ∧
    ¬ ((Transaction.mk true false).exitScope true true =
        .ok (Transaction.mk true false) 0) := by
  decide

/-- C3 amended: on clean scope exit an `OPEN` transaction is committed and a
finalized one is left alone; on error exit an `OPEN` transaction is rolled
back and an already-rolled-back one is left alone, but an already-committed
one triggers a `rollback()` attempt that raises the "already completed"
lifecycle error client-side. -/
theorem exit_scope_semantics (t : Transaction) (b : Bool) :
    (t.committed = false ∧ t.rolled_back = false →
      t.exitScope false true = .ok { t with committed := true } 1 ∧
      t.exitScope true true = .ok { t with rolled_back := true } 1) ∧
    ((t.committed = true ∨ t.rolled_back = true) →
      t.exitScope false b = .ok t 0) ∧
    (t.rolled_back = true → t.exitScope true b = .ok t 0) ∧
    (t.committed = true ∧ t.rolled_back = false →
      t.exitScope true b =
        .clientError "Transaction already completed" t 0) := by
  rcases t with ⟨c, r⟩
  cases c <;> cases r <;> cases b <;> decide

/-- Witness for C3's amended statement: clean exit commits an open
transaction, and error exit on a committed one raises the lifecycle error. -/
theorem exit_scope_semantics_witness :
    (Transaction.mk false false).exitScope false true =
      .ok (Transaction.mk true false) 1 ∧
    (Transaction.mk true false).exitScope true true =
      .clientError "Transaction already completed" (Transaction.mk true false) 0 :=
  ⟨((exit_scope_semantics ⟨false, false⟩ true).1 ⟨rfl, rfl⟩).1,
   (exit_scope_semantics ⟨true, false⟩ true).2.2.2 ⟨rfl, rfl⟩⟩

/-- C6: `has_more` holds exactly when the stored total exceeds the query's
skip (zero when absent) plus the number of returned items; in particular it
is `true` for total 50, skip 10 and a page of 5, and `false` for total 3,
skip 0 and all 3 items returned. -/
theorem has_more_invariant :
    (∀ (α : Type) (r : SearchResult α),
      r.has_more = true ↔ r.total > r.skip + (r.data.length : Int)) ∧
    (SearchResult.init [0, 1, 2, 3, 4] (some 50)
      (some { skip := some 10, limit := some 5 })).has_more = true ∧
    (SearchResult.init [0, 1, 2] (some 3)
      (some { skip := some 0 })).has_more = false := by
  refine ⟨fun α r => ?_, by decide, by decide⟩
  simp [SearchResult.has_more]

/-- C10: constructing a `SearchResult` with the total omitted (`None`) or
equal to `0` stores `len(data)` as the total, and then `has_more` is false
whenever the query's skip is non-negative. -/
theorem total_defaults_to_len (α : Type) (data : List α)
    (sq : Option SearchQueryM)
    (h : 0 ≤ (SearchResult.init data Option.none sq).skip) :
    (SearchResult.init data Option.none sq).total = data.length ∧
    (SearchResult.init data (some 0) sq).total = data.length ∧
    (SearchResult.init data Option.none sq).has_more = false ∧
    (SearchResult.init data (some 0) sq).has_more = false := by
  have h' : 0 ≤ pyOrInt (sq.getD {}).skip 0 := h
  refine ⟨rfl, rfl, ?_, ?_⟩ <;>
    · show decide (pyOrInt (sq.getD {}).skip 0 + (data.length : Int) <
          (data.length : Int)) = false
      simp only [decide_eq_false_iff_not, not_lt]
      omega

/-- Witness for C10 at a one-element data list and a query with skip 2. -/
theorem total_defaults_witness :
    (SearchResult.init [7] Option.none
      (some { skip := some 2 })).total = 1 ∧
    (SearchResult.init [7] (some 0)
      (some { skip := some 2 })).total = 1 ∧
    (SearchResult.init [7] Option.none
      (some { skip := some 2 })).has_more = false ∧
    (SearchResult.init [7] (some 0)
      (some { skip := some 2 })).has_more = false :=
  total_defaults_to_len Nat [7] (some { skip := some 2 }) (by decide)

/-- C5 counterexample: on a successful response whose reported total is `0`
but whose data is non-empty (one record payload), `find` does not return the
reported total: `total or len(data)` makes the stored total `1`, not `0`,
refuting the claim's success clause as stated. -/
theorem find_success_total_zero_counterexample :
    (RecordsAPI.find (.ok ⟨some [.dict []], some 0⟩) Option.none).total = 1 ∧
    ¬ ((RecordsAPI.find (.ok ⟨some [.dict []], some 0⟩) Option.none).total
        = 0) := by
  decide

/-- C5 amended: any transport or wrapping failure is swallowed and an empty
result with total `0` is returned; a successful response yields the wrapped
record payloads, with the reported total stored verbatim unless it is `0` or
absent, in which case the number of returned records is stored instead. -/
theorem find_degradation_semantics (q : Option SearchQueryM) :
    (∀ e : String,
      (RecordsAPI.find (.error e) q).data = [] ∧
      (RecordsAPI.find (.error e) q).total = 0) ∧
    (∀ (r : FindResponse) (records : List (List (String × PyVal))),
      (r.data.getD []).mapM Record.ofPayload = .ok records →
      (RecordsAPI.find (.ok r) q).data = records ∧
      (RecordsAPI.find (.ok r) q).total =
        (if r.total.getD 0 = 0 then (records.length : Int)
         else r.total.getD 0)) ∧
    (∀ (r : FindResponse) (msg : String),
      (r.data.getD []).mapM Record.ofPayload = .error msg →
      (RecordsAPI.find (.ok r) q).data = [] ∧
      (RecordsAPI.find (.ok r) q).total = 0) := by
  refine ⟨fun e => ⟨rfl, rfl⟩, fun r records hok => ?_, fun r msg herr => ?_⟩
  · simp only [RecordsAPI.find, hok, SearchResult.init, pyOrInt]
    constructor <;> simp
  · simp only [RecordsAPI.find, herr, SearchResult.init, pyOrInt]
    constructor <;> simp

/-- Witness for C5's amended statement: a failing transport yields the empty
result with total zero, and a successful response with total 5 yields it. -/
theorem find_degradation_witness :
    ((RecordsAPI.find (.error "connection refused") Option.none).data = [] ∧
      (RecordsAPI.find (.error "connection refused") Option.none).total = 0) ∧
    (RecordsAPI.find
      (.ok ⟨some [PyVal.dict [("__id", PyVal.str "x")]], some 5⟩)
      Option.none).total = 5 := by
  refine ⟨(find_degradation_semantics Option.none).1 "connection refused", ?_⟩
  have h := ((find_degradation_semantics Option.none).2.1
    ⟨some [PyVal.dict [("__id", PyVal.str "x")]], some 5⟩
    [[("__id", PyVal.str "x")]] rfl).2
  simpa using h

/-- A character with a hexadecimal digit value is never the hyphen. -/
theorem hexDigit_ne_dash (c : Char) (h : (hexDigitVal c).isSome = true) :
    c ≠ '-' := by
  intro hc
  subst hc
  revert h
  decide

/-- Splitting a separator-free prefix appended to a remainder prepends the
prefix to the first segment of the remainder's split. -/
theorem pySplitChar_append (sep : Char) (s : List Char)
    (hs : ∀ c ∈ s, c ≠ sep) (l hd : List Char) (tl : List (List Char))
    (hl : pySplitChar sep l = hd :: tl) :
    pySplitChar sep (s ++ l) = (s ++ hd) :: tl := by
  induction s with
  | nil => simpa using hl
  | cons c s ih =>
    have hc : c ≠ sep := hs c (List.mem_cons_self _ _)
    have ih' := ih fun x hx => hs x (List.mem_cons_of_mem _ hx)
    simp only [List.cons_append, pySplitChar]
    rw [if_neg hc, show s.append l = s ++ l from rfl, ih']

/-- Splitting the separator-join of a non-empty list of separator-free
segments recovers exactly the segments. -/
theorem pySplitChar_intercalate (sep : Char) (segs : List (List Char))
    (hne : segs ≠ [])
    (hsep : ∀ s ∈ segs, ∀ c ∈ s, c ≠ sep) :
    pySplitChar sep (intercalateSep sep segs) = segs := by
  induction segs with
  | nil => exact absurd rfl hne
  | cons s ss ih =>
    cases ss with
    | nil =>
      have h := pySplitChar_append sep s
        (fun c hc => hsep s (List.mem_cons_self _ _) c hc) [] [] [] rfl
      simpa [intercalateSep] using h
    | cons s2 ss2 =>
      have ihTail := ih (by simp)
        (fun t ht c hc => hsep t (List.mem_cons_of_mem _ ht) c hc)
      have step : pySplitChar sep (sep :: intercalateSep sep (s2 :: ss2)) =
          [] :: s2 :: ss2 := by
        simp [pySplitChar, ihTail]
      have main := pySplitChar_append sep s
        (fun c hc => hsep s (List.mem_cons_self _ _) c hc)
        (sep :: intercalateSep sep (s2 :: ss2)) [] (s2 :: ss2) step
      simpa [intercalateSep] using main

/-- Folding the `int(_, 16)` accumulator over valid digits never fails and
computes the base-16 value. -/
theorem hexFold_some (cs : List Char) (a : Nat)
    (hhex : ∀ c ∈ cs, (hexDigitVal c).isSome = true) :
    cs.foldl
      (fun acc c =>
        match acc, hexDigitVal c with
        | some a, some d => some (16 * a + d)
        | _, _ => Option.none)
      (some a)
    = some (cs.foldl (fun a c => 16 * a + (hexDigitVal c).getD 0) a) := by
  induction cs generalizing a with
  | nil => rfl
  | cons c cs ih =>
    obtain ⟨d, hd⟩ :=
      Option.isSome_iff_exists.mp (hhex c (List.mem_cons_self _ _))
    simp only [List.foldl_cons, hd]
    rw [ih (16 * a + d) fun x hx => hhex x (List.mem_cons_of_mem _ hx)]
    simp [hd]

/-- `int(s, 16)` succeeds on a non-empty all-hex string and returns its
base-16 value. -/
theorem pyIntHex_eq_hexValue (cs : List Char) (hne : cs ≠ [])
    (hhex : ∀ c ∈ cs, (hexDigitVal c).isSome = true) :
    pyIntHex cs = some (hexValue cs) := by
  cases cs with
  | nil => exact absurd rfl hne
  | cons c cs =>
    simp only [pyIntHex, List.isEmpty_cons, Bool.false_eq_true, if_false,
      hexValue]
    exact hexFold_some (c :: cs) 0 hhex

/-- C8: for a record whose id is the hyphen-join of non-empty hexadecimal
segments (at least two of them), the `timestamp` property returns the
base-16 integer value of the first segment concatenated with the first four
characters of the second segment. -/
theorem timestamp_from_segments (s0 s1 : List Char) (rest : List (List Char))
    (h0 : s0 ≠ [] ∧ ∀ c ∈ s0, (hexDigitVal c).isSome = true)
    (h1 : s1 ≠ [] ∧ ∀ c ∈ s1, (hexDigitVal c).isSome = true)
    (hrest : ∀ seg ∈ rest, ∀ c ∈ seg, c ≠ '-') :
    Record.timestamp
      [("__id", PyVal.str (String.mk (intercalateSep '-' (s0 :: s1 :: rest))))]
      = .ok (hexValue (s0 ++ s1.take 4)) := by
  have hsep : ∀ s ∈ (s0 :: s1 :: rest), ∀ c ∈ s, c ≠ '-' := by
    intro s hs c hc
    rcases List.mem_cons.mp hs with rfl | hs
    · exact hexDigit_ne_dash c (h0.2 c hc)
    rcases List.mem_cons.mp hs with rfl | hs
    · exact hexDigit_ne_dash c (h1.2 c hc)
    · exact hrest s hs c hc
  have hsplit : pySplitChar '-' (intercalateSep '-' (s0 :: s1 :: rest)) =
      s0 :: s1 :: rest :=
    pySplitChar_intercalate '-' (s0 :: s1 :: rest) (by simp) hsep
  have hhex : ∀ c ∈ s0 ++ s1.take 4, (hexDigitVal c).isSome = true := by
    intro c hc
    rcases List.mem_append.mp hc with hc | hc
    · exact h0.2 c hc
    · exact h1.2 c (List.mem_of_mem_take hc)
  have hne : s0 ++ s1.take 4 ≠ [] := by
    intro hcontra
    exact h0.1 (List.append_eq_nil.mp hcontra).1
  show timestamp_parts
      (pySplitChar '-'
        (String.mk (intercalateSep '-' (s0 :: s1 :: rest))).data)
      = Except.ok (hexValue (s0 ++ s1.take 4))
  rw [show (String.mk (intercalateSep '-' (s0 :: s1 :: rest))).data =
      intercalateSep '-' (s0 :: s1 :: rest) from rfl, hsplit]
  simp only [timestamp_parts]
  rw [pyIntHex_eq_hexValue _ hne hhex]

/-- Witness for C8 at the id `"018f3a2b-1c4d-7000"` from the specification:
the derived timestamp is `int("018f3a2b1c4d", 16) = 1714667854925`. -/
theorem timestamp_witness :
    Record.timestamp [("__id", PyVal.str "018f3a2b-1c4d-7000")]
      = .ok 1714667854925 :=
  timestamp_from_segments
    ['0', '1', '8', 'f', '3', 'a', '2', 'b'] ['1', 'c', '4', 'd']
    [['7', '0', '0', '0']] (by decide) (by decide) (by decide)

end RushDB
